import Mathlib

/-!
Verification of the behavioral-graph construction and semantic scoring engine
(`semantic_graphs` module, with the structural-metrics module `graph_features`).

The Python source is shallowly embedded: class/method call data is passed as
explicit lists, the `networkx` directed graph is a pair of a node list and an
edge list with integer weights, fallible inputs (graph file read, metadata
sidecar read) are `Option` values, and floating-point arithmetic is idealized
as exact rational/real arithmetic (`ℚ` for the discrete pipeline stages, `ℝ`
for the transcendental `tanh`/`log` stages).
-/

/-! ## String helpers: substring containment and `split(".")[-1]` -/

/-- Boolean prefix test on character lists. -/
def isPrefOf : List Char → List Char → Bool
  | [], _ => true
  | _ :: _, [] => false
  | a :: as, b :: bs => a == b && isPrefOf as bs

/-- Search for `pat` as a contiguous sublist of the second argument. -/
def subSearch (pat : List Char) : List Char → Bool
  | [] => pat.isEmpty
  | c :: cs => isPrefOf pat (c :: cs) || subSearch pat cs

/-- Python `pat in hay`: case-sensitive substring containment. -/
def hasSub (hay pat : String) : Bool :=
  subSearch pat.data hay.data

/-- Last-segment extraction helper: chars after the last dot seen so far. -/
def lastCompAux : List Char → List Char → List Char
  | [], acc => acc.reverse
  | c :: cs, acc => if c == '.' then lastCompAux cs [] else lastCompAux cs (c :: acc)

/-- Python `s.split(".")[-1]`. -/
def lastComp (s : String) : String :=
  ⟨lastCompAux s.data []⟩

/-! ## Constant tables from `semantic_graphs` -/

/-- `STOP_CLASSES` from `semantic_graphs`. -/
def STOP_CLASSES : List String :=
  ["Ljava/lang/Object;", "Ljava/lang/String;", "Ljava/lang/StringBuilder;",
   "Ljava/lang/Integer;", "Ljava/lang/Long;", "Ljava/lang/Boolean;",
   "Ljava/lang/Class;", "Ljava/lang/Thread;", "Ljava/lang/Exception;"]

/-- `BENIGN_HINT_PERMS` from `semantic_graphs`. -/
def BENIGN_HINT_PERMS : List String :=
  ["USE_FINGERPRINT", "NFC", "NFC_TRANSACTION", "SMARTCARD",
   "org.simalliance.openmobileapi.SMARTCARD",
   "AUTHENTICATE_ACCOUNTS", "MANAGE_ACCOUNTS",
   "com.google.android.providers.gsf.permission.READ_GSERVICES",
   "BLUETOOTH", "BLUETOOTH_ADMIN",
   "com.google.android.c2dm.permission.RECEIVE"]

/-- The twenty behavioral categories (keys of `CATEGORY_RULES`). -/
inductive Cat
  | network | telephony | sms | crypto | reflection | dynamic
  | dangerous_permissions | file_operations | device_info | location
  | media_capture | root_detection | admin_operations | obfuscation
  | background_ops | banking_targets | native_code | anti_debug
  | modern_libs | privileged_ops
deriving DecidableEq, Fintype

/-- Iteration order of `CATEGORY_RULES` (Python dict insertion order). -/
def allCats : List Cat :=
  [.network, .telephony, .sms, .crypto, .reflection, .dynamic,
   .dangerous_permissions, .file_operations, .device_info, .location,
   .media_capture, .root_detection, .admin_operations, .obfuscation,
   .background_ops, .banking_targets, .native_code, .anti_debug,
   .modern_libs, .privileged_ops]

/-- `CATEGORY_RULES` from `semantic_graphs`. -/
def rules : Cat → List String
  | .network => ["Landroid/net", "Ljava/net", "HttpURLConnection", "URLConnection",
                 "OkHttp", "okhttp3", "Volley", "Socket", "ServerSocket"]
  | .telephony => ["Landroid/telephony", "Telephony", "TelephonyManager"]
  | .sms => ["Sms", "TextMessage", "SmsManager", "sendTextMessage",
             "sendMultipartTextMessage", "android.provider.Telephony"]
  | .crypto => ["Ljavax/crypto", "Ljava/security", "Cipher", "MessageDigest",
                "KeyGenerator", "SecretKey", "encrypt", "decrypt", "AES", "RSA"]
  | .reflection => ["Ljava/lang/reflect", "Class;->forName", "getDeclaredMethod"]
  | .dynamic => ["DexClassLoader", "PathClassLoader", "System.loadLibrary",
                 "System.load", "dalvik.system.DexFile", "InMemoryDexClassLoader"]
  | .dangerous_permissions => ["DEVICE_ADMIN", "SYSTEM_ALERT_WINDOW", "WRITE_SETTINGS"]
  | .file_operations => ["java.io.File", "FileInputStream", "FileOutputStream",
                         "RandomAccessFile", "/system/", "/data/data/",
                         "getExternalStorageDirectory",
                         "openFileOutput", "openFileInput", "deleteFile"]
  | .device_info => ["getDeviceId", "getSubscriberId", "getSimSerialNumber", "getLine1Number",
                     "Build.SERIAL", "Settings.Secure.ANDROID_ID", "WifiInfo.getMacAddress",
                     "BluetoothAdapter.getAddress", "getInstalledPackages", "getRunningTasks"]
  | .location => ["LocationManager", "GPS_PROVIDER", "NETWORK_PROVIDER",
                  "getLastKnownLocation", "requestLocationUpdates", "getCellLocation"]
  | .media_capture => ["Camera", "MediaRecorder", "AudioRecord", "takePicture",
                       "startRecording", "setAudioSource", "setVideoSource"]
  | .root_detection => ["/system/bin/su", "/system/xbin/su", "Superuser.apk", "SuperSU",
                        "busybox", "which su", "Runtime.exec", "ProcessBuilder"]
  | .admin_operations => ["DevicePolicyManager", "DeviceAdminReceiver", "lockNow",
                          "wipeData", "resetPassword", "setPasswordQuality", "ComponentName"]
  | .obfuscation => ["String.charAt", "StringBuilder.reverse", "Base64.decode",
                     "Base64.encode", "URLDecoder.decode", "URLEncoder.encode",
                     "xor", "\\x", "unicode", "StringBuffer"]
  | .background_ops => ["startService", "bindService", "ServiceConnection", "BroadcastReceiver",
                        "sendBroadcast", "registerReceiver", "AlarmManager", "PendingIntent"]
  | .banking_targets => ["com.android.vending", "market://", "play.google.com",
                         "banking", "wallet", "payment", "paypal", "bank"]
  | .native_code => ["System.loadLibrary", "native", "JNI", "NDK", ".so", "arm64", "x86", "mips"]
  | .anti_debug => ["Debug.isDebuggerConnected", "ActivityManager.isUserAMonkey",
                    "Build.TAGS", "test-keys", "ApplicationInfo.FLAG_DEBUGGABLE",
                    "/proc/self/status", "TracerPid"]
  | .modern_libs => ["androidx.", "com.google.firebase", "org.json", "kotlin.coroutines"]
  | .privileged_ops => []

/-- `PERM_TO_CATEGORY` from `semantic_graphs`. -/
def permToCategory : String → Option Cat
  | "READ_SMS" => some .sms
  | "RECEIVE_SMS" => some .sms
  | "SEND_SMS" => some .sms
  | "RECEIVE_WAP_PUSH" => some .sms
  | "READ_PHONE_STATE" => some .device_info
  | "GET_ACCOUNTS" => some .device_info
  | "GET_TASKS" => some .device_info
  | "READ_CONTACTS" => some .device_info
  | "WRITE_CONTACTS" => some .device_info
  | "CAMERA" => some .media_capture
  | "RECORD_AUDIO" => some .media_capture
  | "ACCESS_FINE_LOCATION" => some .location
  | "ACCESS_COARSE_LOCATION" => some .location
  | "READ_EXTERNAL_STORAGE" => some .file_operations
  | "WRITE_EXTERNAL_STORAGE" => some .file_operations
  | "SYSTEM_ALERT_WINDOW" => some .admin_operations
  | "WRITE_SETTINGS" => some .admin_operations
  | "DEVICE_ADMIN" => some .admin_operations
  | "RECEIVE_BOOT_COMPLETED" => some .background_ops
  | "WAKE_LOCK" => some .background_ops
  | "INSTALL_PACKAGES" => some .privileged_ops
  | "RESTART_PACKAGES" => some .privileged_ops
  | "READ_LOGS" => some .privileged_ops
  | "STATUS_BAR" => some .privileged_ops
  | "EXPAND_STATUS_BAR" => some .privileged_ops
  | "READ_FRAME_BUFFER" => some .privileged_ops
  | "com.google.android.c2dm.permission.RECEIVE" => some .background_ops
  | _ => none

/-- The behavior weight table `W` from `semantic_graphs`. -/
def W : Cat → ℚ
  | .sms => 15.5
  | .dangerous_permissions => 16.2
  | .admin_operations => 15.0
  | .dynamic => 15.0
  | .telephony => 11.8
  | .root_detection => 11.5
  | .device_info => 7.0
  | .banking_targets => 11.5
  | .media_capture => 11.0
  | .network => 10.5
  | .crypto => 5.8
  | .location => 5.5
  | .file_operations => 3.0
  | .anti_debug => 5.3
  | .background_ops => 4.8
  | .native_code => 5.0
  | .reflection => 4.8
  | .obfuscation => 4.6
  | .modern_libs => 1.8
  | .privileged_ops => 8.5

/-! ## The directed weighted graph (networkx `DiGraph` fragment used here) -/

/-- Directed graph: node list in insertion order, edge list `(src, dst, weight)`
with at most one entry per ordered pair. -/
structure DiGraph where
  nodes : List String
  edges : List (String × String × Nat)
deriving DecidableEq

def DiGraph.numNodes (g : DiGraph) : Nat := g.nodes.length

def DiGraph.numEdges (g : DiGraph) : Nat := g.edges.length

/-- `networkx` adds a node on first sight, keeping insertion order. -/
def addNode (g : DiGraph) (n : String) : DiGraph :=
  if n ∈ g.nodes then g else { g with nodes := g.nodes ++ [n] }

/-- `G.has_edge(s, d)`. -/
def hasEdge (g : DiGraph) (s d : String) : Bool :=
  g.edges.any (fun e => e.1 == s && e.2.1 == d)

/-- `G[s][d]['weight'] += 1`: bump the weight of the `(s,d)` entry. -/
def bumpEdge : List (String × String × Nat) → String → String → List (String × String × Nat)
  | [], s, d => [(s, d, 1)]
  | e :: es, s, d =>
    if e.1 = s ∧ e.2.1 = d then (s, d, e.2.2 + 1) :: es else e :: bumpEdge es s d

/-- `G.add_edge(s, d, weight=1)` resp. weight increment when present. -/
def addEdge (g : DiGraph) (s d : String) : DiGraph :=
  if hasEdge g s d then { g with edges := bumpEdge g.edges s d }
  else { nodes := (addNode (addNode g s) d).nodes, edges := g.edges ++ [(s, d, 1)] }

/-- Inner loop over one method's xref callees: skip self-loop, else add edge. -/
def addCallees (g : DiGraph) (src : String) (callees : List String) : DiGraph :=
  callees.foldl (fun g2 dst => if src = dst then g2 else addEdge g2 src dst) g

/-- `for i, (_, callee, _) in enumerate(xrefs): if i >= cap_per_method: break`:
only the first 50 raw callees of a method are considered. -/
def addMethodEdges (g : DiGraph) (src : String) (callees : List String) : DiGraph :=
  addCallees g src (callees.take 50)

/-- Per-class loop: a class in `STOP_CLASSES` is skipped entirely (only the
source class name is checked against the stop set). -/
def addClassEdges (g : DiGraph) (c : String × List (List String)) : DiGraph :=
  if c.1 ∈ STOP_CLASSES then g
  else c.2.foldl (fun g2 m => addMethodEdges g2 c.1 m) g

/-- `G.remove_edges_from([... if weight < min_weight])`: nodes are untouched. -/
def removeEdgesBelow (g : DiGraph) (w : Nat) : DiGraph :=
  { g with edges := g.edges.filter (fun e => !(e.2.2 < w)) }

/-- `build_api_graph_compact` (graph-construction part, `semantic_graphs`):
a class is a pair of its name and the callee-class lists of its methods.
The source's default `min_weight` is 2. -/
def build_api_graph_compact (classes : List (String × List (List String)))
    (min_weight : Nat) : DiGraph :=
  let G := classes.foldl addClassEdges ⟨[], []⟩
  if min_weight > 1 then removeEdgesBelow G min_weight else G

/-! ## Metadata sidecar and analyzer stages (`analyze_malware_semantically`) -/

/-- The fields of the `.meta.json` sidecar that the analyzer reads.
`apk_size_kb` is `none` when the field is missing or zero
(`int(meta.get("apk_size_kb") or 0) or None`). -/
structure Meta where
  apk_size_kb : Option Nat
  all_permissions : List String
  danger_perm_hits : Nat
deriving DecidableEq

/-- Sidecar absent or unreadable is modelled as `none`. -/
def allPermShorts : Option Meta → List String
  | none => []
  | some m => m.all_permissions.map lastComp

def metaSize : Option Meta → Option Nat
  | none => none
  | some m => m.apk_size_kb

def dangerHits : Option Meta → Nat
  | none => 0
  | some m => m.danger_perm_hits

/-- `is_small = (apk_size_kb is not None and apk_size_kb <= 400)`. -/
def isSmall : Option Nat → Bool
  | none => false
  | some k => k ≤ 400

/-- `is_large = (apk_size_kb is not None and apk_size_kb >= 15000)`. -/
def isLarge : Option Nat → Bool
  | none => false
  | some k => 15000 ≤ k

/-- Benign-hint tally: shorts in `BENIGN_HINT_PERMS`, plus `C2D_MESSAGE` again. -/
def benignHintHits (m? : Option Meta) : Nat :=
  ((allPermShorts m?).filter (fun p => p ∈ BENIGN_HINT_PERMS)).length
  + ((allPermShorts m?).filter (fun p => p == "C2D_MESSAGE")).length

def benignHeavy (m? : Option Meta) : Bool :=
  2 ≤ benignHintHits m?

/-- Graph evidence: a node increments a category once if any pattern of that
category occurs in the node identifier. -/
def countsG (g : DiGraph) (c : Cat) : Nat :=
  (g.nodes.filter (fun n => (rules c).any (fun p => hasSub n p))).length

/-- Increment one category of a count table. -/
def catBump (m : Cat → Nat) (c : Cat) (k : Nat) : Cat → Nat :=
  fun c2 => if c2 = c then m c2 + k else m c2

/-- Manifest counts start at zero; `danger_perm_hits` (when positive) is added
to `dangerous_permissions`. -/
def countsMBase (m? : Option Meta) : Cat → Nat :=
  fun c =>
    if c = Cat.dangerous_permissions ∧ 0 < dangerHits m? then dangerHits m? else 0

/-- One pass of the permission loop:
`cat = PERM_TO_CATEGORY.get(p) or PERM_TO_CATEGORY.get(short)`,
then the `C2D_MESSAGE` special case. -/
def permStep (m : Cat → Nat) (p : String) : Cat → Nat :=
  let short := lastComp p
  let m1 := match permToCategory p with
    | some c => catBump m c 1
    | none => match permToCategory short with
      | some c => catBump m c 1
      | none => m
  if short = "C2D_MESSAGE" then catBump m1 Cat.background_ops 1 else m1

/-- Raw manifest category counts (`counts_m` before capping). -/
def countsM0 (m? : Option Meta) : Cat → Nat :=
  (allPermShorts m?).foldl permStep (countsMBase m?)

/-- `caps_large` / `caps_normal`: the per-category cap for the size class. -/
def capValue (large : Bool) : Cat → Option Nat
  | .sms => some (if large then 1 else 2)
  | .dangerous_permissions => some (if large then 3 else 6)
  | .admin_operations => some (if large then 1 else 2)
  | .device_info => some (if large then 1 else 3)
  | .file_operations => some (if large then 1 else 3)
  | .background_ops => some (if large then 1 else 3)
  | .location => some (if large then 1 else 3)
  | .media_capture => some (if large then 1 else 3)
  | .privileged_ops => some (if large then 1 else 2)
  | _ => none

/-- `if counts_m[k] > v: counts_m[k] = v`. -/
def applyCaps (large : Bool) (m : Cat → Nat) : Cat → Nat :=
  fun c => match capValue large c with
    | some v => if m c > v then v else m c
    | none => m c

/-- Round-half-to-even of the rational `a / b` (`b > 0`), matching Python's
`round`; the source applies it to products `count * 0.4` and `count * 0.5`. -/
def roundHalfEvenDiv (a b : Nat) : Nat :=
  let q := a / b
  let r := a % b
  if 2 * r < b then q
  else if b < 2 * r then q + 1
  else if q % 2 = 0 then q else q + 1

/-- The large-and-benign suppression block: `sms` and `admin_operations` are
zeroed when the graph shows no evidence; `device_info` and `file_operations`
are scaled by 0.4 and `background_ops` by 0.5 under the same condition. -/
def suppressCrit (large heavy : Bool) (gc mc : Cat → Nat) : Cat → Nat :=
  if large && heavy then
    fun c => match c with
      | .sms => if gc .sms = 0 then 0 else mc .sms
      | .admin_operations => if gc .admin_operations = 0 then 0 else mc .admin_operations
      | .device_info =>
        if gc .device_info = 0 then roundHalfEvenDiv (2 * mc .device_info) 5
        else mc .device_info
      | .file_operations =>
        if gc .file_operations = 0 then roundHalfEvenDiv (2 * mc .file_operations) 5
        else mc .file_operations
      | .background_ops =>
        if gc .background_ops = 0 then roundHalfEvenDiv (mc .background_ops) 2
        else mc .background_ops
      | c2 => mc c2
  else mc

/-- Manifest counts as used by the score: raw counts, capped, then suppressed. -/
def finalManifestCounts (g : DiGraph) (m? : Option Meta) : Cat → Nat :=
  suppressCrit (isLarge (metaSize m?)) (benignHeavy m?) (countsG g)
    (applyCaps (isLarge (metaSize m?)) (countsM0 m?))

/-- Blend factor β: 0.55 small, 0.10 large-or-benign-heavy, else 0.25. -/
def betaOf (small large heavy : Bool) : ℚ :=
  if small then 0.55 else if large || heavy then 0.10 else 0.25

/-- `sum(W.get(cat, 1.0) * counts[cat] for cat in counts)`. -/
def semOfCounts (cnt : Cat → Nat) : ℚ :=
  (allCats.map (fun c => W c * cnt c)).sum

/-- `norm = 1.0 + N/400 + E/800`. -/
def normOf (g : DiGraph) : ℚ :=
  1 + (g.numNodes : ℚ) / 400 + (g.numEdges : ℚ) / 800

/-- Out-degree of a node (number of out-edges, not their weights). -/
def outDeg (g : DiGraph) (n : String) : Nat :=
  (g.edges.filter (fun e => e.1 == n)).length

/-- `max((d for _, d in G.out_degree()), default=0)`. -/
def maxOutDeg (g : DiGraph) : Nat :=
  (g.nodes.map (outDeg g)).foldl max 0

/-- `networkx.density` for a directed graph: `E / (N·(N−1))`, 0 when `N ≤ 1`
or there are no edges. -/
def density (n e : Nat) : ℚ :=
  if n ≤ 1 then 0 else (e : ℚ) / ((n : ℚ) * ((n : ℚ) - 1))

/-- Critical-hit count over `CRIT = (sms, admin_operations, dynamic,
dangerous_permissions)`. -/
def critHits (gc mc : Cat → Nat) : Nat :=
  (([Cat.sms, Cat.admin_operations, Cat.dynamic, Cat.dangerous_permissions] : List Cat).filter
    (fun k => 0 < gc k + mc k)).length

def totalCatHits (gc mc : Cat → Nat) : Nat :=
  (allCats.map gc).sum + (allCats.map mc).sum

def riskCore (gc mc : Cat → Nat) : Nat :=
  (gc .sms + mc .sms) + (gc .admin_operations + mc .admin_operations)
    + (gc .dynamic + mc .dynamic)

/-- The soft heuristic bonuses (step 8 of the analyzer). -/
def bonusOf (gc mc : Cat → Nat) : ℚ :=
  let b1 : ℚ := if 2 ≤ critHits gc mc then 4 else 0
  let frac : ℚ :=
    if 0 < totalCatHits gc mc then (riskCore gc mc : ℚ) / (totalCatHits gc mc : ℚ) else 0
  let b2 : ℚ := if 0.30 ≤ frac then 2 else if 0.20 ≤ frac then 1 else 0
  let b3 : ℚ :=
    if (0 < gc .sms ∨ 0 < gc .device_info) ∧ 0 < gc .sms + mc .sms
        ∧ 1 < gc .device_info + mc .device_info then 2 else 0
  let b4 : ℚ :=
    if (0 < gc .admin_operations ∨ 0 < gc .crypto) ∧ 0 < gc .admin_operations + mc .admin_operations
        ∧ 1 < gc .crypto + mc .crypto then 2 else 0
  b1 + b2 + b3 + b4

/-- Size multiplier (step 9): checks `≤ 1000`, then `≥ 50000`, then `≥ 15000`. -/
def multOf : Option Nat → ℚ
  | none => 1
  | some k => if k ≤ 1000 then 1.1 else if 50000 ≤ k then 0.95 else if 15000 ≤ k then 0.92 else 1

/-- `_squash` with its default `K = 120`: `0` for non-positive input, else
`K·tanh(x/K)`. -/
noncomputable def squash (x : ℝ) : ℝ :=
  if x ≤ 0 then 0 else 120 * Real.tanh (x / 120)

/-- Structural score:
`0.6·(0.2·(log1p E + log1p N) + 0.5·log1p maxOut + 2.0·density)`. -/
noncomputable def structuralOf (g : DiGraph) : ℝ :=
  0.6 * (0.2 * (Real.log (1 + (g.numEdges : ℝ)) + Real.log (1 + (g.numNodes : ℝ)))
    + 0.5 * Real.log (1 + (maxOutDeg g : ℝ))
    + 2.0 * ((density g.numNodes g.numEdges : ℚ) : ℝ))

/-- `max(0, sem + bonus)`: the squashed normalized semantic blend
`semRaw = semG + beta * semM`, `semNormed = semRaw / norm`, `sem = squash(semNormed)`,
plus the heuristic bonus, floored at zero. -/
noncomputable def semBonusTerm (g : DiGraph) (m? : Option Meta) : ℝ :=
  max 0 (squash ((((semOfCounts (countsG g)
          + betaOf (isSmall (metaSize m?)) (isLarge (metaSize m?)) (benignHeavy m?)
            * semOfCounts (finalManifestCounts g m?)) / normOf g : ℚ) : ℝ))
    + ((bonusOf (countsG g) (finalManifestCounts g m?) : ℚ) : ℝ))

/-- The scoring body for a non-empty graph:
`total = max(0, sem + bonus) * mult + structural`. -/
noncomputable def scoreCore (g : DiGraph) (m? : Option Meta) : ℝ :=
  semBonusTerm g m? * ((multOf (metaSize m?) : ℚ) : ℝ) + structuralOf g

/-- `analyze_malware_semantically`: an unreadable graph (`none`) and an empty
graph both return score `0.0`; otherwise the full pipeline runs. -/
noncomputable def analyze_malware_semantically (g? : Option DiGraph) (m? : Option Meta) : ℝ :=
  match g? with
  | none => 0
  | some g => if g.numNodes = 0 then 0 else scoreCore g m?

/-- Total of all edge weights of a graph (each raw call contributes one). -/
def totalWeight (g : DiGraph) : Nat :=
  (g.edges.map (fun e => e.2.2)).sum

/-- In-degree of a node (number of in-edges). -/
def inDeg (g : DiGraph) (n : String) : Nat :=
  (g.edges.filter (fun e => e.2.1 == n)).length

/-! ## Structural metrics module (`graph_features.compute_graph_metrics`) -/

/-- The result dictionary of `compute_graph_metrics`. -/
structure Metrics where
  node_count : Nat
  edge_count : Nat
  density : ℚ
  avg_betweenness : ℚ
  avg_clustering : ℚ
  pagerank_max : ℚ
  avg_in_degree : ℚ
  avg_out_degree : ℚ
deriving DecidableEq

/-- `compute_graph_metrics` from `graph_features`. The betweenness,
clustering and pagerank computations are calls into the external `networkx`
library (not part of this repository), so they are taken as parameters
`betw`, `clust`, `pr`; the `N = 0` branch returns its all-zero dictionary
before any of them would be invoked, so every theorem about that branch holds
for arbitrary library behavior. -/
def compute_graph_metrics (betw clust pr : DiGraph → ℚ) (g : DiGraph) : Metrics :=
  if g.numNodes = 0 then ⟨0, 0, 0, 0, 0, 0, 0, 0⟩
  else
    { node_count := g.numNodes
      edge_count := g.numEdges
      density := density g.numNodes g.numEdges
      avg_betweenness := betw g
      avg_clustering := clust g
      pagerank_max := pr g
      avg_in_degree := ((g.nodes.map (inDeg g)).sum : ℚ) / (g.numNodes : ℚ)
      avg_out_degree := ((g.nodes.map (outDeg g)).sum : ℚ) / (g.numNodes : ℚ) }

/-! ## Spec-side definitions and concrete test vectors -/

/-- Modelled from the spec: the size-multiplier table as the spec words it
(×1.1 if ≤ 1000 KB, ×0.95 if ≥ 50000 KB, ×0.92 if in [15000, 50000) KB,
else ×1.0; unknown size gets no branch). To be compared with `multOf`. -/
def sizeMultiplierSpec : Option Nat → ℚ
  | none => 1
  | some k =>
    if k ≤ 1000 then 1.1
    else if 50000 ≤ k then 0.95
    else if 15000 ≤ k ∧ k < 50000 then 0.92
    else 1

/-- A package with a single raw call `La; → Lb;`: its one aggregated edge has
weight 1 and is removed by the default `min_weight = 2` threshold. -/
def cxClasses : List (String × List (List String)) :=
  [("La;", [["Lb;"]])]

/-- The graph built from `cxClasses` at the default threshold. -/
def cxGraph : DiGraph :=
  build_api_graph_compact cxClasses 2

/-- A large (20000 KB) package with two benign-hint permissions and one SMS
permission in its manifest. -/
def metaLargeBenign : Meta :=
  ⟨some 20000, ["NFC", "BLUETOOTH", "READ_SMS"], 0⟩

/-- A normal-size package whose dangerous-permission tally is 10. -/
def metaDanger10 : Meta :=
  ⟨some 500, [], 10⟩

/-- Edges the builder may produce: loop-free with a non-stop source class. -/
def goodEdge (e : String × String × Nat) : Prop :=
  e.1 ≠ e.2.1 ∧ e.1 ∉ STOP_CLASSES

/-- Edge sources of a built graph are registered nodes. -/
def srcInv (g : DiGraph) : Prop :=
  ∀ e ∈ g.edges, e.1 ∈ g.nodes

/-! ## Helper lemmas -/

theorem analyze_some (g : DiGraph) (m? : Option Meta) :
    analyze_malware_semantically (some g) m? = if g.numNodes = 0 then 0 else scoreCore g m? :=
  rfl

theorem analyze_none (m? : Option Meta) :
    analyze_malware_semantically none m? = 0 :=
  rfl

theorem mem_bumpEdge {es : List (String × String × Nat)} {s d : String}
    {e : String × String × Nat} (h : e ∈ bumpEdge es s d) :
    (e.1 = s ∧ e.2.1 = d) ∨ e ∈ es := by
  induction es with
  | nil =>
    simp only [bumpEdge, List.mem_singleton] at h
    subst h
    exact Or.inl ⟨rfl, rfl⟩
  | cons e0 es ih =>
    simp only [bumpEdge] at h
    split at h
    · rcases List.mem_cons.mp h with h1 | h1
      · subst h1
        exact Or.inl ⟨rfl, rfl⟩
      · exact Or.inr (List.mem_cons_of_mem _ h1)
    · rcases List.mem_cons.mp h with h1 | h1
      · subst h1
        exact Or.inr (List.mem_cons_self _ _)
      · rcases ih h1 with h2 | h2
        · exact Or.inl h2
        · exact Or.inr (List.mem_cons_of_mem _ h2)

theorem mem_addEdge {g : DiGraph} {s d : String} {e : String × String × Nat}
    (h : e ∈ (addEdge g s d).edges) :
    (e.1 = s ∧ e.2.1 = d) ∨ e ∈ g.edges := by
  unfold addEdge at h
  split at h
  · exact mem_bumpEdge h
  · simp only [List.mem_append, List.mem_singleton] at h
    rcases h with h | h
    · exact Or.inr h
    · subst h
      exact Or.inl ⟨rfl, rfl⟩

theorem mem_addCallees {src : String} (l : List String) :
    ∀ (g : DiGraph) (e : String × String × Nat), e ∈ (addCallees g src l).edges →
      e ∈ g.edges ∨ (e.1 = src ∧ e.1 ≠ e.2.1) := by
  induction l with
  | nil =>
    intro g e h
    exact Or.inl h
  | cons d ds ih =>
    intro g e h
    rw [addCallees, List.foldl_cons] at h
    rcases ih _ e h with h1 | h1
    · by_cases hsd : src = d
      · rw [if_pos hsd] at h1
        exact Or.inl h1
      · rw [if_neg hsd] at h1
        rcases mem_addEdge h1 with h2 | h2
        · right
          refine ⟨h2.1, ?_⟩
          rw [h2.1, h2.2]
          exact hsd
        · exact Or.inl h2
    · exact Or.inr h1

theorem mem_methodsFold {src : String} (ms : List (List String)) :
    ∀ (g : DiGraph) (e : String × String × Nat),
      e ∈ (ms.foldl (fun g2 m => addMethodEdges g2 src m) g).edges →
      e ∈ g.edges ∨ (e.1 = src ∧ e.1 ≠ e.2.1) := by
  induction ms with
  | nil =>
    intro g e h
    exact Or.inl h
  | cons m ms ih =>
    intro g e h
    rw [List.foldl_cons] at h
    rcases ih _ e h with h1 | h1
    · exact mem_addCallees _ _ _ h1
    · exact Or.inr h1

theorem addClassEdges_good {g : DiGraph} {c : String × List (List String)}
    (hg : ∀ e ∈ g.edges, goodEdge e) :
    ∀ e ∈ (addClassEdges g c).edges, goodEdge e := by
  intro e h
  unfold addClassEdges at h
  split at h
  · exact hg e h
  · rename_i hstop
    rcases mem_methodsFold _ _ _ h with h1 | h1
    · exact hg e h1
    · exact ⟨h1.2, h1.1 ▸ hstop⟩

theorem classesFold_good (classes : List (String × List (List String))) :
    ∀ (g : DiGraph), (∀ e ∈ g.edges, goodEdge e) →
      ∀ e ∈ (classes.foldl addClassEdges g).edges, goodEdge e := by
  induction classes with
  | nil =>
    intro g hg
    exact hg
  | cons c cs ih =>
    intro g hg
    rw [List.foldl_cons]
    exact ih _ (addClassEdges_good hg)

theorem build_good {classes : List (String × List (List String))} {mw : Nat}
    {e : String × String × Nat} (h : e ∈ (build_api_graph_compact classes mw).edges) :
    goodEdge e := by
  unfold build_api_graph_compact at h
  have hbase : ∀ e2 ∈ (classes.foldl addClassEdges ⟨[], []⟩).edges, goodEdge e2 :=
    classesFold_good classes ⟨[], []⟩ (by intro e2 h2; simp at h2)
  split at h
  · exact hbase e (List.mem_of_mem_filter h)
  · exact hbase e h

theorem mem_addNode_of_mem {g : DiGraph} {n m : String} (h : n ∈ g.nodes) :
    n ∈ (addNode g m).nodes := by
  unfold addNode
  split
  · exact h
  · exact List.mem_append_left _ h

theorem self_mem_addNode (g : DiGraph) (m : String) : m ∈ (addNode g m).nodes := by
  unfold addNode
  split
  · assumption
  · exact List.mem_append_right _ (List.mem_singleton.mpr rfl)

theorem srcInv_addEdge {g : DiGraph} {s d : String} (hg : srcInv g) :
    srcInv (addEdge g s d) := by
  intro e h
  unfold addEdge at h ⊢
  split at h
  · rename_i hhas
    rw [if_pos hhas]
    rcases mem_bumpEdge h with h1 | h1
    · rw [h1.1]
      rcases List.any_eq_true.mp hhas with ⟨e0, he0, hp⟩
      have : e0.1 = s := by
        simp only [Bool.and_eq_true, beq_iff_eq] at hp
        exact hp.1
      exact this ▸ hg e0 he0
    · exact hg e h1
  · rename_i hhas
    rw [if_neg hhas]
    simp only [List.mem_append, List.mem_singleton] at h
    rcases h with h | h
    · exact mem_addNode_of_mem (mem_addNode_of_mem (hg e h))
    · rw [h]
      exact mem_addNode_of_mem (self_mem_addNode g s)

theorem srcInv_addCallees {src : String} (l : List String) :
    ∀ (g : DiGraph), srcInv g → srcInv (addCallees g src l) := by
  induction l with
  | nil =>
    intro g hg
    exact hg
  | cons d ds ih =>
    intro g hg
    rw [addCallees, List.foldl_cons]
    by_cases hsd : src = d
    · rw [if_pos hsd]
      exact ih g hg
    · rw [if_neg hsd]
      exact ih _ (srcInv_addEdge hg)

theorem srcInv_methodsFold {src : String} (ms : List (List String)) :
    ∀ (g : DiGraph), srcInv g →
      srcInv (ms.foldl (fun g2 m => addMethodEdges g2 src m) g) := by
  induction ms with
  | nil =>
    intro g hg
    exact hg
  | cons m ms ih =>
    intro g hg
    rw [List.foldl_cons]
    exact ih _ (srcInv_addCallees _ _ hg)

theorem srcInv_classesFold (classes : List (String × List (List String))) :
    ∀ (g : DiGraph), srcInv g → srcInv (classes.foldl addClassEdges g) := by
  induction classes with
  | nil =>
    intro g hg
    exact hg
  | cons c cs ih =>
    intro g hg
    rw [List.foldl_cons]
    apply ih
    unfold addClassEdges
    split
    · exact hg
    · exact srcInv_methodsFold _ _ hg

theorem srcInv_build (classes : List (String × List (List String))) (mw : Nat) :
    srcInv (build_api_graph_compact classes mw) := by
  have hbase : srcInv (classes.foldl addClassEdges ⟨[], []⟩) :=
    srcInv_classesFold classes ⟨[], []⟩ (by intro e h; simp at h)
  unfold build_api_graph_compact
  split
  · intro e h
    exact hbase e (List.mem_of_mem_filter h)
  · exact hbase

theorem build_no_nodes_no_edges {classes : List (String × List (List String))} {mw : Nat}
    (h : (build_api_graph_compact classes mw).numNodes = 0) :
    (build_api_graph_compact classes mw).edges = [] := by
  have hn : (build_api_graph_compact classes mw).nodes = [] :=
    List.length_eq_zero.mp h
  rcases he : (build_api_graph_compact classes mw).edges with _ | ⟨e, es⟩
  · rfl
  · have := srcInv_build classes mw e (he ▸ List.mem_cons_self e es)
    rw [hn] at this
    simp at this

theorem addMethodEdges_take50 (g : DiGraph) (src : String) (ms : List String) :
    addMethodEdges g src (ms.take 50) = addMethodEdges g src ms := by
  unfold addMethodEdges
  rw [List.take_take]
  norm_num

theorem addClassEdges_take50 (g : DiGraph) (c : String × List (List String)) :
    addClassEdges g (c.1, c.2.map (fun ms => ms.take 50)) = addClassEdges g c := by
  unfold addClassEdges
  simp only
  split
  · rfl
  · rw [List.foldl_map]
    have hfun : (fun (g2 : DiGraph) (m : List String) => addMethodEdges g2 c.1 (m.take 50))
        = fun g2 m => addMethodEdges g2 c.1 m :=
      funext fun g2 => funext fun m => addMethodEdges_take50 g2 c.1 m
    rw [hfun]

theorem build_take50 (classes : List (String × List (List String))) (mw : Nat) :
    build_api_graph_compact (classes.map (fun c => (c.1, c.2.map (fun ms => ms.take 50)))) mw
      = build_api_graph_compact classes mw := by
  unfold build_api_graph_compact
  rw [List.foldl_map]
  have hfun : (fun (g : DiGraph) (c : String × List (List String)) =>
      addClassEdges g (c.1, c.2.map (fun ms => ms.take 50))) = addClassEdges :=
    funext fun g => funext fun c => addClassEdges_take50 g c
  rw [hfun]

theorem totalWeight_bumpEdge (es : List (String × String × Nat)) (s d : String) :
    ((bumpEdge es s d).map (fun e => e.2.2)).sum = ((es.map (fun e => e.2.2)).sum) + 1 := by
  induction es with
  | nil =>
    simp [bumpEdge]
  | cons e0 es ih =>
    simp only [bumpEdge]
    split
    · simp only [List.map_cons, List.sum_cons]
      omega
    · simp only [List.map_cons, List.sum_cons, ih]
      omega

theorem totalWeight_addEdge (g : DiGraph) (s d : String) :
    totalWeight (addEdge g s d) = totalWeight g + 1 := by
  unfold totalWeight addEdge
  split
  · exact totalWeight_bumpEdge g.edges s d
  · simp

theorem totalWeight_addCallees (src : String) (l : List String) :
    ∀ (g : DiGraph), totalWeight (addCallees g src l) ≤ totalWeight g + l.length := by
  induction l with
  | nil =>
    intro g
    simp [addCallees]
  | cons d ds ih =>
    intro g
    rw [addCallees, List.foldl_cons]
    by_cases hsd : src = d
    · rw [if_pos hsd]
      calc totalWeight (addCallees g src ds) ≤ totalWeight g + ds.length := ih g
        _ ≤ totalWeight g + (d :: ds).length := by simp
    · rw [if_neg hsd]
      calc totalWeight (addCallees (addEdge g src d) src ds)
          ≤ totalWeight (addEdge g src d) + ds.length := ih _
        _ = totalWeight g + (d :: ds).length := by
            rw [totalWeight_addEdge]
            simp
            omega

theorem totalWeight_addMethodEdges (g : DiGraph) (src : String) (ms : List String) :
    totalWeight (addMethodEdges g src ms) ≤ totalWeight g + 50 := by
  unfold addMethodEdges
  calc totalWeight (addCallees g src (ms.take 50))
      ≤ totalWeight g + (ms.take 50).length := totalWeight_addCallees src _ g
    _ ≤ totalWeight g + 50 := by
        have := List.length_take_le 50 ms
        omega

theorem density_nonneg (n e : Nat) : 0 ≤ density n e := by
  unfold density
  split
  · exact le_refl 0
  · rename_i h
    have h1 : (1 : ℚ) < (n : ℚ) := by
      have : 1 < n := by omega
      exact_mod_cast this
    have h2 : (0 : ℚ) < (n : ℚ) * ((n : ℚ) - 1) := by nlinarith
    exact div_nonneg (by positivity) (le_of_lt h2)

theorem structuralOf_nonneg (g : DiGraph) : 0 ≤ structuralOf g := by
  unfold structuralOf
  have h1 : 0 ≤ Real.log (1 + (g.numEdges : ℝ)) :=
    Real.log_nonneg (le_add_of_nonneg_right (Nat.cast_nonneg _))
  have h2 : 0 ≤ Real.log (1 + (g.numNodes : ℝ)) :=
    Real.log_nonneg (le_add_of_nonneg_right (Nat.cast_nonneg _))
  have h3 : 0 ≤ Real.log (1 + (maxOutDeg g : ℝ)) :=
    Real.log_nonneg (le_add_of_nonneg_right (Nat.cast_nonneg _))
  have h4 : (0 : ℝ) ≤ ((density g.numNodes g.numEdges : ℚ) : ℝ) := by
    exact_mod_cast density_nonneg g.numNodes g.numEdges
  nlinarith

theorem structuralOf_pos {g : DiGraph} (h : 0 < g.numNodes) : 0 < structuralOf g := by
  unfold structuralOf
  have h1 : 0 ≤ Real.log (1 + (g.numEdges : ℝ)) :=
    Real.log_nonneg (le_add_of_nonneg_right (Nat.cast_nonneg _))
  have h2 : 0 < Real.log (1 + (g.numNodes : ℝ)) := by
    apply Real.log_pos
    have : (1 : ℝ) ≤ (g.numNodes : ℝ) := by exact_mod_cast h
    linarith
  have h3 : 0 ≤ Real.log (1 + (maxOutDeg g : ℝ)) :=
    Real.log_nonneg (le_add_of_nonneg_right (Nat.cast_nonneg _))
  have h4 : (0 : ℝ) ≤ ((density g.numNodes g.numEdges : ℚ) : ℝ) := by
    exact_mod_cast density_nonneg g.numNodes g.numEdges
  nlinarith

theorem multOf_pos (sz : Option Nat) : 0 < multOf sz := by
  cases sz with
  | none => norm_num [multOf]
  | some k =>
    simp only [multOf]
    split_ifs <;> norm_num

theorem semBonusTerm_nonneg (g : DiGraph) (m? : Option Meta) : 0 ≤ semBonusTerm g m? :=
  le_max_left 0 _

theorem scoreCore_nonneg (g : DiGraph) (m? : Option Meta) : 0 ≤ scoreCore g m? := by
  unfold scoreCore
  have h1 := semBonusTerm_nonneg g m?
  have h2 : (0 : ℝ) ≤ ((multOf (metaSize m?) : ℚ) : ℝ) := by
    have := multOf_pos (metaSize m?)
    have h : (0 : ℝ) < ((multOf (metaSize m?) : ℚ) : ℝ) := by exact_mod_cast this
    linarith
  have h3 := structuralOf_nonneg g
  nlinarith

theorem scoreCore_pos {g : DiGraph} (m? : Option Meta) (h : 0 < g.numNodes) :
    0 < scoreCore g m? := by
  unfold scoreCore
  have h1 := semBonusTerm_nonneg g m?
  have h2 : (0 : ℝ) ≤ ((multOf (metaSize m?) : ℚ) : ℝ) := by
    have := multOf_pos (metaSize m?)
    have h2a : (0 : ℝ) < ((multOf (metaSize m?) : ℚ) : ℝ) := by exact_mod_cast this
    linarith
  have h3 := structuralOf_pos h
  nlinarith

theorem analyze_nonneg (g? : Option DiGraph) (m? : Option Meta) :
    0 ≤ analyze_malware_semantically g? m? := by
  cases g? with
  | none => exact le_refl 0
  | some g =>
    rw [analyze_some]
    split
    · exact le_refl 0
    · exact scoreCore_nonneg g m?

theorem analyze_pos {g : DiGraph} (m? : Option Meta) (h : 0 < g.numNodes) :
    0 < analyze_malware_semantically (some g) m? := by
  rw [analyze_some, if_neg (by omega)]
  exact scoreCore_pos m? h

theorem tanh_lt_one (x : ℝ) : Real.tanh x < 1 := by
  rw [Real.tanh_eq_sinh_div_cosh, div_lt_one (Real.cosh_pos x)]
  exact Real.sinh_lt_cosh x

theorem tanh_lt_tanh {x y : ℝ} (h : x < y) : Real.tanh x < Real.tanh y := by
  rw [Real.tanh_eq_sinh_div_cosh, Real.tanh_eq_sinh_div_cosh,
    div_lt_div_iff₀ (Real.cosh_pos x) (Real.cosh_pos y)]
  have h2 : 0 < Real.sinh (y - x) := Real.sinh_pos_iff.mpr (by linarith)
  rw [Real.sinh_sub] at h2
  nlinarith [Real.cosh_pos x, Real.cosh_pos y]

theorem countsM0_none : ∀ c, countsM0 none c = 0 := by decide

theorem finalManifest_none (g : DiGraph) (c : Cat) :
    finalManifestCounts g none c = 0 := by
  unfold finalManifestCounts
  have hL : isLarge (metaSize none) = false := rfl
  rw [hL]
  unfold suppressCrit
  simp only [Bool.false_and, Bool.false_eq_true, if_false]
  unfold applyCaps
  rw [countsM0_none c]
  cases capValue false c <;> simp

theorem semOfCounts_zero : semOfCounts (fun _ => 0) = 0 := by
  norm_num [semOfCounts, allCats]

theorem benignHintHits_none : benignHintHits none = 0 := by decide

theorem betaOf_none :
    betaOf (isSmall (metaSize none)) (isLarge (metaSize none)) (benignHeavy none) = 0.25 :=
  rfl

theorem multOf_none : multOf (metaSize none) = 1 := rfl

theorem finalManifest_none_fun (g : DiGraph) :
    finalManifestCounts g none = fun _ => 0 :=
  funext (finalManifest_none g)

theorem analyze_noMeta {g : DiGraph} (h : g.numNodes ≠ 0) :
    analyze_malware_semantically (some g) none =
      max 0 (squash (((semOfCounts (countsG g) / normOf g : ℚ) : ℝ))
          + ((bonusOf (countsG g) (fun _ => 0) : ℚ) : ℝ)) + structuralOf g := by
  rw [analyze_some, if_neg h]
  unfold scoreCore semBonusTerm
  rw [finalManifest_none_fun g, semOfCounts_zero, betaOf_none, multOf_none]
  norm_num

theorem multOf_eq_spec (sz : Option Nat) : multOf sz = sizeMultiplierSpec sz := by
  cases sz with
  | none => rfl
  | some k =>
    simp only [multOf, sizeMultiplierSpec]
    split_ifs with h1 h2 h3 h4 <;> first | rfl | omega

theorem applyCaps_min {m : Cat → Nat} {large : Bool} {c : Cat} {v : Nat}
    (h : capValue large c = some v) :
    applyCaps large m c = min (m c) v := by
  unfold applyCaps
  rw [h]
  simp only
  split_ifs <;> omega

/-! ## Claim theorems -/

/-- C1 counterexample: the package `cxClasses` has its single call edge
(weight 1) removed by the default `min_weight = 2` threshold, yet the builder
returns a graph with 2 nodes (the endpoints survive as isolated nodes), and
the scoring pipeline returns a strictly positive score, not 0.0. -/
theorem minWeight_leaves_isolated_nodes_cx :
    cxGraph.numNodes = 2 ∧ cxGraph.numEdges = 0 ∧
      analyze_malware_semantically (some cxGraph) none ≠ 0 := by
  refine ⟨by decide, by decide, ?_⟩
  exact ne_of_gt (analyze_pos none (by decide))

/-- C1 (amended): the score is 0.0 exactly for graphs with 0 nodes; a graph
built with 0 nodes also has 0 edges. Edges removed only by the `min_weight`
threshold leave their endpoints behind as nodes, so such packages score
positive (see the counterexample). -/
theorem score_zero_iff_graph_empty :
    (∀ (g : DiGraph) (m? : Option Meta),
        analyze_malware_semantically (some g) m? = 0 ↔ g.numNodes = 0) ∧
    (∀ (classes : List (String × List (List String))) (mw : Nat),
        (build_api_graph_compact classes mw).numNodes = 0 →
        (build_api_graph_compact classes mw).edges = []) := by
  constructor
  · intro g m?
    constructor
    · intro h
      by_contra hne
      have hp := analyze_pos m? (Nat.pos_of_ne_zero hne)
      rw [h] at hp
      exact lt_irrefl 0 hp
    · intro h
      rw [analyze_some, if_pos h]
  · intro classes mw h
    exact build_no_nodes_no_edges h

/-- Witness for C1 (amended) at concrete inputs. -/
theorem score_zero_iff_graph_empty_witness :
    (build_api_graph_compact [] 2).edges = [] ∧
      (analyze_malware_semantically (some (DiGraph.mk ["La;"] [])) none = 0 ↔
        (DiGraph.mk ["La;"] []).numNodes = 0) :=
  ⟨score_zero_iff_graph_empty.2 [] 2 (by decide),
   score_zero_iff_graph_empty.1 (DiGraph.mk ["La;"] []) none⟩

/-- C2 counterexample: a failed graph read (`none`, the unreadable/malformed
input path `except: return {"malware_score": 0.0}`) returns exactly 0.0 —
the fault is silently scored as 0, not raised or marked failed. -/
theorem unreadable_graph_scores_zero_cx :
    analyze_malware_semantically none none = 0 :=
  rfl

/-- C2 (amended): an unreadable or malformed graph input yields the same
returned score 0.0 as a genuinely empty graph; the analyzer does not raise
for either, so a 0.0 result does not distinguish a read fault from an empty
graph. -/
theorem read_failure_zero_like_empty :
    (∀ m? : Option Meta, analyze_malware_semantically none m? = 0) ∧
    (∀ (g : DiGraph) (m? : Option Meta), g.numNodes = 0 →
      analyze_malware_semantically (some g) m? = 0) := by
  constructor
  · intro m?
    rfl
  · intro g m? h
    rw [analyze_some, if_pos h]

/-- Witness for C2 (amended) at concrete inputs. -/
theorem read_failure_zero_like_empty_witness :
    analyze_malware_semantically none (some metaDanger10) = 0 ∧
      analyze_malware_semantically (some (DiGraph.mk [] [])) none = 0 :=
  ⟨read_failure_zero_like_empty.1 (some metaDanger10),
   read_failure_zero_like_empty.2 (DiGraph.mk [] []) none (by decide)⟩

/-- C3 counterexample: the builder checks only the source class against the
stop-set, so an edge into the stop-set class `Ljava/lang/String;` survives
construction and filtering. -/
theorem stop_destination_edge_cx :
    ("La;", "Ljava/lang/String;", 2)
        ∈ (build_api_graph_compact
            [("La;", [["Ljava/lang/String;", "Ljava/lang/String;"]])] 2).edges
      ∧ "Ljava/lang/String;" ∈ STOP_CLASSES := by
  constructor <;> decide

/-- C3 (amended): every edge of a built graph is loop-free and has a source
outside the stop-set; destinations are not filtered against the stop-set. -/
theorem built_graph_no_selfloop_no_stop_source :
    ∀ (classes : List (String × List (List String))) (mw : Nat)
      (e : String × String × Nat), e ∈ (build_api_graph_compact classes mw).edges →
      e.1 ≠ e.2.1 ∧ e.1 ∉ STOP_CLASSES :=
  fun _ _ _ h => build_good h

/-- Witness for C3 (amended) at a concrete built edge. -/
theorem built_graph_no_selfloop_no_stop_source_witness :
    ("Lc;" : String) ≠ "Ld;" ∧ ("Lc;" : String) ∉ STOP_CLASSES :=
  built_graph_no_selfloop_no_stop_source [("Lc;", [["Ld;"]])] 1
    ("Lc;", "Ld;", 1) (by decide)

/-- C4: the fan-out cap — truncating every method's raw callee list to its
first 50 entries before construction changes nothing (edges beyond the cap
contribute to no weight), and one method adds at most 50 to the total of all
edge weights. -/
theorem fanout_cap_applied_before_aggregation :
    (∀ (classes : List (String × List (List String))) (mw : Nat),
        build_api_graph_compact
            (classes.map (fun c => (c.1, c.2.map (fun ms => ms.take 50)))) mw
          = build_api_graph_compact classes mw) ∧
    (∀ (g : DiGraph) (src : String) (ms : List String),
        totalWeight (addMethodEdges g src ms) ≤ totalWeight g + 50) :=
  ⟨build_take50, totalWeight_addMethodEdges⟩

/-- C5: for a non-empty graph the final score equals
`max(0, sem + bonus) × sizeMultiplier + structural` with the multiplier given
by the spec's branch table (1.1 for ≤1000 KB, 0.95 for ≥50000 KB, 0.92 for
[15000, 50000) KB, else 1.0, unknown size 1.0), applied only to the
`max(0, sem + bonus)` term; and the score is always non-negative. -/
theorem final_score_formula_nonneg :
    (∀ (g : DiGraph) (m? : Option Meta), g.numNodes ≠ 0 →
        analyze_malware_semantically (some g) m?
          = semBonusTerm g m? * ((sizeMultiplierSpec (metaSize m?) : ℚ) : ℝ)
            + structuralOf g) ∧
    (∀ (g? : Option DiGraph) (m? : Option Meta),
        0 ≤ analyze_malware_semantically g? m?) := by
  constructor
  · intro g m? h
    rw [analyze_some, if_neg h]
    unfold scoreCore
    rw [multOf_eq_spec]
  · exact analyze_nonneg

/-- Witness for C5 at concrete inputs. -/
theorem final_score_formula_nonneg_witness :
    analyze_malware_semantically (some (DiGraph.mk ["La;"] [])) none
        = semBonusTerm (DiGraph.mk ["La;"] []) none
            * ((sizeMultiplierSpec (metaSize none) : ℚ) : ℝ)
          + structuralOf (DiGraph.mk ["La;"] [])
      ∧ 0 ≤ analyze_malware_semantically none none :=
  ⟨final_score_formula_nonneg.1 (DiGraph.mk ["La;"] []) none (by decide),
   final_score_formula_nonneg.2 none none⟩

/-- C6: the squash with K = 120 is 0 on non-positive inputs, strictly
increasing on positive inputs, bounded strictly below K everywhere, and
`squash K = K · tanh 1`. -/
theorem squash_saturating_props :
    (∀ x : ℝ, x ≤ 0 → squash x = 0) ∧
    (∀ x y : ℝ, 0 < x → x < y → squash x < squash y) ∧
    (∀ x : ℝ, squash x < 120) ∧
    squash 120 = 120 * Real.tanh 1 := by
  refine ⟨?_, ?_, ?_, ?_⟩
  · intro x h
    simp [squash, h]
  · intro x y hx hxy
    unfold squash
    rw [if_neg (by linarith), if_neg (by linarith)]
    have h1 : x / 120 < y / 120 := by linarith
    have h2 := tanh_lt_tanh h1
    linarith
  · intro x
    unfold squash
    split
    · norm_num
    · have := tanh_lt_one (x / 120)
      linarith
  · unfold squash
    rw [if_neg (by norm_num)]
    norm_num

/-- Witness for C6 at concrete inputs. -/
theorem squash_saturating_props_witness :
    squash (-1) = 0 ∧ squash 1 < squash 2 ∧ squash 5 < 120
      ∧ squash 120 = 120 * Real.tanh 1 :=
  ⟨squash_saturating_props.1 (-1) (by norm_num),
   squash_saturating_props.2.1 1 2 (by norm_num) (by norm_num),
   squash_saturating_props.2.2.1 5,
   squash_saturating_props.2.2.2⟩

/-- C7: for a large package with the benign-hint signal, the manifest counts
of `sms` and `admin_operations` after suppression are zero when the graph
count for the category is zero, and equal to the capped manifest count
(unchanged by suppression) when the graph count is non-zero. -/
theorem large_benign_manifest_suppression :
    ∀ (g : DiGraph) (m? : Option Meta),
      isLarge (metaSize m?) = true → benignHeavy m? = true →
      (countsG g Cat.sms = 0 → finalManifestCounts g m? Cat.sms = 0) ∧
      (countsG g Cat.sms ≠ 0 →
        finalManifestCounts g m? Cat.sms = applyCaps true (countsM0 m?) Cat.sms) ∧
      (countsG g Cat.admin_operations = 0 →
        finalManifestCounts g m? Cat.admin_operations = 0) ∧
      (countsG g Cat.admin_operations ≠ 0 →
        finalManifestCounts g m? Cat.admin_operations
          = applyCaps true (countsM0 m?) Cat.admin_operations) := by
  intro g m? hL hB
  unfold finalManifestCounts
  rw [hL, hB]
  unfold suppressCrit
  simp only [Bool.and_self, if_true]
  refine ⟨?_, ?_, ?_, ?_⟩ <;> intro hc <;> simp [hc]

/-- Witness for C7: a 20000 KB package with two benign-hint permissions and a
manifest SMS permission (raw sms count 1) is suppressed to 0 because the
empty graph shows no sms evidence. -/
theorem large_benign_manifest_suppression_witness :
    countsM0 (some metaLargeBenign) Cat.sms = 1 ∧
      finalManifestCounts (DiGraph.mk [] []) (some metaLargeBenign) Cat.sms = 0 :=
  ⟨by decide,
   (large_benign_manifest_suppression (DiGraph.mk [] []) (some metaLargeBenign)
      (by decide) (by decide)).1 (by decide)⟩

/-- C8: capped manifest categories clamp to the minimum of the raw count and
the size-class cap; concretely, a dangerous-permission tally of 10 under the
normal-size cap 6 caps to exactly 6. -/
theorem manifest_caps_clamp_min :
    (∀ (m : Cat → Nat) (large : Bool) (c : Cat) (v : Nat),
        capValue large c = some v → applyCaps large m c = min (m c) v) ∧
    countsM0 (some metaDanger10) Cat.dangerous_permissions = 10 ∧
    applyCaps false (countsM0 (some metaDanger10)) Cat.dangerous_permissions = 6 := by
  refine ⟨?_, by decide, by decide⟩
  intro m large c v h
  exact applyCaps_min h

/-- Witness for C8 at a concrete capped category. -/
theorem manifest_caps_clamp_min_witness :
    applyCaps false (fun _ => 10) Cat.dangerous_permissions = min 10 6 :=
  manifest_caps_clamp_min.1 (fun _ => 10) false Cat.dangerous_permissions 6 (by decide)

/-- C9: on a graph with 0 nodes the structural-metrics computation returns
the all-zero result (density, avg_betweenness, avg_clustering, pagerank_max,
avg_in_degree, avg_out_degree all 0) without invoking any library metric
routine, for arbitrary behavior of those routines, and without error (it is
a total function). -/
theorem empty_graph_metrics_all_zero :
    ∀ (betw clust pr : DiGraph → ℚ) (g : DiGraph), g.numNodes = 0 →
      compute_graph_metrics betw clust pr g = ⟨0, 0, 0, 0, 0, 0, 0, 0⟩ := by
  intro betw clust pr g h
  unfold compute_graph_metrics
  rw [if_pos h]

/-- Witness for C9 on the empty graph with nonsense metric routines. -/
theorem empty_graph_metrics_all_zero_witness :
    compute_graph_metrics (fun _ => 37) (fun _ => 41) (fun _ => 43) (DiGraph.mk [] [])
      = ⟨0, 0, 0, 0, 0, 0, 0, 0⟩ :=
  empty_graph_metrics_all_zero (fun _ => 37) (fun _ => 41) (fun _ => 43)
    (DiGraph.mk [] []) rfl

/-- C10: with the metadata sidecar absent or unreadable (`none`), every
manifest category count is 0, the benign-hint count is 0, β = 0.25, the size
multiplier is 1.0, and the analyzer's score is computed from the graph
alone. -/
theorem missing_meta_defaults :
    ∀ g : DiGraph, g.numNodes ≠ 0 →
      (∀ c, countsM0 none c = 0) ∧
      (∀ c, finalManifestCounts g none c = 0) ∧
      benignHintHits none = 0 ∧
      betaOf (isSmall (metaSize none)) (isLarge (metaSize none)) (benignHeavy none) = 0.25 ∧
      multOf (metaSize none) = 1 ∧
      analyze_malware_semantically (some g) none =
        max 0 (squash (((semOfCounts (countsG g) / normOf g : ℚ) : ℝ))
            + ((bonusOf (countsG g) (fun _ => 0) : ℚ) : ℝ)) + structuralOf g := by
  intro g h
  exact ⟨countsM0_none, finalManifest_none g, benignHintHits_none, betaOf_none,
    multOf_none, analyze_noMeta h⟩

/-- Witness for C10 on a concrete one-node graph. -/
theorem missing_meta_defaults_witness :
    benignHintHits none = 0 ∧
      analyze_malware_semantically (some (DiGraph.mk ["Lw;"] [])) none =
        max 0 (squash (((semOfCounts (countsG (DiGraph.mk ["Lw;"] []))
              / normOf (DiGraph.mk ["Lw;"] []) : ℚ) : ℝ))
            + ((bonusOf (countsG (DiGraph.mk ["Lw;"] [])) (fun _ => 0) : ℚ) : ℝ))
          + structuralOf (DiGraph.mk ["Lw;"] []) :=
  ⟨(missing_meta_defaults (DiGraph.mk ["Lw;"] []) (by decide)).2.2.1,
   (missing_meta_defaults (DiGraph.mk ["Lw;"] []) (by decide)).2.2.2.2.2⟩
